import Mathlib

/-!
Verification of the MTX checkout customization (BillingForm / ShippingForm).

Shallow embedding of the TypeScript source:
  - `src/unnamed/part_000` (BillingForm.tsx and ShippingForm.tsx, concatenated)
  - `src/packages/core/src/app/mtxConfig.ts`

JavaScript truthiness on strings is modelled as "non-empty"; `undefined`
values produced by optional chaining are modelled with `Option`.
-/

namespace CheckoutJs

/-! ## mtxConfig (src/packages/core/src/app/mtxConfig.ts) -/

structure AddressCustomFieldsConfig where
  pIvaID : String
  fattID : String
  deriving Repr, DecidableEq

structure MtxConfig where
  AddressCustomFields : AddressCustomFieldsConfig
  deriving Repr, DecidableEq

/-- `mtxConfig` from mtxConfig.ts (the `shippingMethods` block is unused by the
code under verification and is omitted). -/
def mtxConfig : MtxConfig :=
  { AddressCustomFields := { pIvaID := "30", fattID := "32" } }

/-! ## FormField (the attributes this code reads or writes, plus `label` as a
representative untouched display attribute) -/

structure FormField where
  id : String
  name : String
  required : Bool
  custom : Bool
  label : String
  deriving Repr, DecidableEq

/-- `getFieldsWithPivaReadonly` from BillingForm (part_000 lines 16-45). -/
def getFieldsWithPivaReadonly (getFields : Option String → List FormField)
    (countryCode : Option String) : List FormField :=
  let fields := getFields countryCode
  let pIvaId := mtxConfig.AddressCustomFields.pIvaID
  fields.map fun field =>
    let isPivaField :=
      field.name == "field_" ++ pIvaId ||
      field.name == "customField[" ++ pIvaId ++ "]" ||
      field.id == pIvaId
    let isCompanyField :=
      field.name == "company" ||
      field.name == "billingAddress.company" ||
      field.name == "shippingAddress.company" ||
      field.id == "company"
    if isPivaField || isCompanyField then
      { field with required := false }
    else
      field

/-- `getFieldsWithPivaRequired` from ShippingForm (part_000 lines 598-622).
Note: its company-alias list does not include "billingAddress.company". -/
def getFieldsWithPivaRequired (getFields : Option String → List FormField)
    (countryCode : Option String) : List FormField :=
  let fields := getFields countryCode
  let pIvaId := mtxConfig.AddressCustomFields.pIvaID
  fields.map fun field =>
    let isPivaField :=
      field.name == "field_" ++ pIvaId ||
      field.name == "customField[" ++ pIvaId ++ "]" ||
      field.id == pIvaId
    let isCompanyField :=
      field.name == "company" ||
      field.name == "shippingAddress.company" ||
      field.id == "company"
    if isPivaField || isCompanyField then
      { field with required := false }
    else
      field

/-! ## Claim-side alias predicates (the aliasing rules as the spec states them) -/

/-- VAT alias as the spec states it: name `field_<pIvaID>`,
name `customField[<pIvaID>]`, or id equal to pIvaID. -/
def matchesVatAlias (f : FormField) : Bool :=
  f.name == "field_" ++ mtxConfig.AddressCustomFields.pIvaID ||
  f.name == "customField[" ++ mtxConfig.AddressCustomFields.pIvaID ++ "]" ||
  f.id == mtxConfig.AddressCustomFields.pIvaID

/-- Company alias as the claim states it for both patchers: name `company`,
`billingAddress.company`, `shippingAddress.company`, or id `company`. -/
def matchesCompanyAlias (f : FormField) : Bool :=
  f.name == "company" ||
  f.name == "billingAddress.company" ||
  f.name == "shippingAddress.company" ||
  f.id == "company"

/-- Company alias actually used by the shipping patcher: no
`billingAddress.company`. -/
def matchesCompanyAliasShipping (f : FormField) : Bool :=
  f.name == "company" ||
  f.name == "shippingAddress.company" ||
  f.id == "company"

lemma getFieldsWithPivaReadonly_eq_map (getFields : Option String → List FormField)
    (cc : Option String) :
    getFieldsWithPivaReadonly getFields cc =
      (getFields cc).map fun f =>
        if matchesVatAlias f || matchesCompanyAlias f then
          { f with required := false }
        else f := rfl

lemma getFieldsWithPivaRequired_eq_map (getFields : Option String → List FormField)
    (cc : Option String) :
    getFieldsWithPivaRequired getFields cc =
      (getFields cc).map fun f =>
        if matchesVatAlias f || matchesCompanyAliasShipping f then
          { f with required := false }
        else f := rfl

/-- C1 (amended): both patchers return a list of the same length and order in
which a field matching the VAT alias or the respective company-alias set has
`required` set to `false` and every other field is returned unchanged
(pointwise over every index, via `getElem?`); the billing patcher uses the
four company aliases of the claim, while the shipping patcher omits
`billingAddress.company` from them. -/
theorem C1_field_requirement_patchers (getFields : Option String → List FormField)
    (cc : Option String) (i : Nat) :
    (getFieldsWithPivaReadonly getFields cc)[i]? =
      ((getFields cc)[i]?).map (fun f =>
        if matchesVatAlias f || matchesCompanyAlias f then
          { f with required := false }
        else f) ∧
    (getFieldsWithPivaRequired getFields cc)[i]? =
      ((getFields cc)[i]?).map (fun f =>
        if matchesVatAlias f || matchesCompanyAliasShipping f then
          { f with required := false }
        else f) := by
  constructor
  · rw [getFieldsWithPivaReadonly_eq_map, List.getElem?_map]
  · rw [getFieldsWithPivaRequired_eq_map, List.getElem?_map]

/-- A required field whose name is `billingAddress.company`: it matches the
claim's company-alias list but is left unchanged by the shipping patcher. -/
def c1Field : FormField :=
  { id := "other", name := "billingAddress.company", required := true,
    custom := false, label := "Company" }

/-- C1 counterexample: `c1Field` matches the claim's company-alias list, yet
`getFieldsWithPivaRequired` (the shipping patcher) returns it unchanged, with
`required` still `true` — contradicting the claim that both patchers force
`required` to `false` on every field matching those aliases. -/
theorem C1_counterexample :
    matchesCompanyAlias c1Field = true ∧
    getFieldsWithPivaRequired (fun _ => [c1Field]) none = [c1Field] ∧
    c1Field.required = true := by
  refine ⟨by decide, ?_, by decide⟩
  rw [getFieldsWithPivaRequired_eq_map]
  decide

/-! ## Addresses and customers (the attributes this code reads or writes) -/

structure CustomFormFieldValue where
  fieldId : String
  fieldValue : String
  deriving Repr, DecidableEq

/-- An address value object. `customFields = none` models a value that is not
an array (the source guards with `Array.isArray`). -/
structure Address where
  firstName : String
  lastName : String
  company : String
  address1 : String
  city : String
  countryCode : String
  phone : String
  customFields : Option (List CustomFormFieldValue)
  deriving Repr, DecidableEq

structure CustomerGroup where
  name : String
  deriving Repr, DecidableEq

structure Customer where
  id : Nat
  customerGroup : Option CustomerGroup
  addresses : List Address
  deriving Repr, DecidableEq

/-! ## Company-name resolution (part_000 lines 108-115 and 451-458) -/

/-- JavaScript truthiness of an optionally-present string: `undefined` and the
empty string are falsy. -/
def jsTruthy (s : Option String) : Bool :=
  match s with
  | none => false
  | some v => v != ""

/-- JavaScript `a || b` on optionally-present strings. -/
def jsOr (a b : Option String) : Option String :=
  if jsTruthy a then a else b

/-- The `companyName` computation of BillingForm/ShippingForm:
`companyNameFromGroup || companyNameFromAddress || addressBeingEdited?.company || ''`.
In BillingForm `addressBeingEdited` is `billingAddress`, in ShippingForm it is
`shippingAddress`; the computation is otherwise identical. -/
def companyNameResolved (customer : Option Customer)
    (addressBeingEdited : Option Address) : String :=
  let companyNameFromGroup :=
    customer.bind fun c => c.customerGroup.map CustomerGroup.name
  let companyNameFromAddress :=
    customer.bind fun c => c.addresses.head?.map Address.company
  (jsOr companyNameFromGroup
    (jsOr companyNameFromAddress (addressBeingEdited.map Address.company))).getD ""

/-- A string that is present and non-empty, as an `Option`. -/
def truthyString : Option String → Option String
  | some s => if s == "" then none else some s
  | none => none

/-- The fixed precedence as the spec words it: customer-group name if present,
else first stored address's company, else the company of the address being
edited, else the empty string. -/
def companyNamePrecedenceSpec (groupName firstAddrCompany editedCompany : Option String) :
    String :=
  match truthyString groupName with
  | some s => s
  | none =>
    match truthyString firstAddrCompany with
    | some s => s
    | none =>
      match truthyString editedCompany with
      | some s => s
      | none => ""

lemma jsOr_chain_eq_precedence (a b c : Option String) :
    (jsOr a (jsOr b c)).getD "" = companyNamePrecedenceSpec a b c := by
  unfold jsOr jsTruthy companyNamePrecedenceSpec truthyString
  cases a <;> cases b <;> cases c <;>
    simp only [Option.getD_none, Option.getD_some] <;>
    split_ifs <;>
    simp_all [bne_iff_ne, beq_iff_eq]

/-- C4: the resolved display company name follows the fixed precedence
customer-group name → first stored address's company → company of the address
being edited → empty string (a value being "present" meaning non-empty, per
JavaScript truthiness); and for any customer whose customer-group name is
"Acme" the result is "Acme" regardless of the stored addresses and of the
address being edited. -/
theorem C4_company_name_precedence (customer : Option Customer)
    (edited : Option Address) :
    (companyNameResolved customer edited =
      companyNamePrecedenceSpec
        (customer.bind fun c => c.customerGroup.map CustomerGroup.name)
        (customer.bind fun c => c.addresses.head?.map Address.company)
        (edited.map Address.company)) ∧
    (∀ (cid : Nat) (addrs : List Address),
      companyNameResolved
        (some { id := cid, customerGroup := some { name := "Acme" },
                addresses := addrs })
        edited = "Acme") := by
  constructor
  · exact jsOr_chain_eq_precedence _ _ _
  · intro cid addrs
    unfold companyNameResolved jsOr jsTruthy
    simp

/-! ## loadCompanyVat (part_000 lines 120-148 and 462-490) -/

/-- The parsed JSON body of a resolved fetch. `vatNumber = none` models an
absent or `null` `vatNumber` field. -/
structure CompanyDataResponse where
  ok : Bool
  status : Nat
  vatNumber : Option String
  deriving Repr, DecidableEq

/-- The observable outcome of `fetch` + `res.json()`. -/
inductive FetchOutcome where
  | networkError : FetchOutcome
  | response : CompanyDataResponse → FetchOutcome
  deriving Repr, DecidableEq

/-- The `try` body of `loadCompanyVat`: throws (`Except.error`) on a network
failure or a non-ok HTTP status; on success, updates the VAT state only when
`data.vatNumber` is truthy (present and non-empty), otherwise keeps the
current state. Returns the resulting `companyVat` state. -/
def loadCompanyVatBody (outcome : FetchOutcome) (companyVat : String) :
    Except String String :=
  match outcome with
  | FetchOutcome.networkError => Except.error "network error"
  | FetchOutcome.response res =>
    if !res.ok then
      Except.error ("HTTP " ++ toString res.status)
    else
      match res.vatNumber with
      | some v => if v != "" then Except.ok v else Except.ok companyVat
      | none => Except.ok companyVat

/-- `loadCompanyVat` with its `catch`: every error is caught and logged
(second component `true`) and the VAT state is retained; no error escapes —
the function is total and returns a plain pair. -/
def loadCompanyVat (outcome : FetchOutcome) (companyVat : String) :
    String × Bool :=
  match loadCompanyVatBody outcome companyVat with
  | Except.ok v => (v, false)
  | Except.error _ => (companyVat, true)

/-- C5: a successful fetch whose body carries `vatNumber = "IT123"` sets the
resolved VAT state to "IT123" with no error logged; a network error or a
non-2xx response leaves the initial empty-string state unchanged and logs the
error; and every error raised inside the body is caught, yielding the retained
state rather than propagating — `loadCompanyVat` never throws by construction. -/
theorem C5_fetch_vat_handling (res : CompanyDataResponse) (vat : String) :
    (res.ok = true → res.vatNumber = some "IT123" →
      loadCompanyVat (FetchOutcome.response res) "" = ("IT123", false)) ∧
    loadCompanyVat FetchOutcome.networkError "" = ("", true) ∧
    (res.ok = false →
      loadCompanyVat (FetchOutcome.response res) "" = ("", true)) ∧
    (∀ e, loadCompanyVatBody (FetchOutcome.response res) vat = Except.error e →
      loadCompanyVat (FetchOutcome.response res) vat = (vat, true)) := by
  refine ⟨?_, rfl, ?_, ?_⟩
  · intro hok hvat
    unfold loadCompanyVat loadCompanyVatBody
    simp [hok, hvat]
  · intro hok
    unfold loadCompanyVat loadCompanyVatBody
    simp [hok]
  · intro e he
    unfold loadCompanyVat
    simp [he]

/-- C5 witness. -/
theorem C5_fetch_vat_handling_witness :
    loadCompanyVat
      (FetchOutcome.response { ok := true, status := 200, vatNumber := some "IT123" })
      "" = ("IT123", false) ∧
    loadCompanyVat
      (FetchOutcome.response { ok := false, status := 500, vatNumber := none })
      "" = ("", true) := by
  refine ⟨?_, ?_⟩
  · exact (C5_fetch_vat_handling
      { ok := true, status := 200, vatNumber := some "IT123" } "").1 rfl rfl
  · exact (C5_fetch_vat_handling
      { ok := false, status := 500, vatNumber := none } "").2.2.1 rfl

/-- C9: a successful (ok) response whose `vatNumber` is absent, null or the
empty string leaves the resolved VAT state unchanged and logs no error. -/
theorem C9_nontruthy_vat_no_update (res : CompanyDataResponse) (vat : String)
    (hok : res.ok = true)
    (h : res.vatNumber = none ∨ res.vatNumber = some "") :
    loadCompanyVat (FetchOutcome.response res) vat = (vat, false) := by
  unfold loadCompanyVat loadCompanyVatBody
  rcases h with h | h <;> simp [hok, h]

/-- C9 witness. -/
theorem C9_nontruthy_vat_no_update_witness :
    loadCompanyVat
      (FetchOutcome.response { ok := true, status := 200, vatNumber := some "" })
      "OLD" = ("OLD", false) :=
  C9_nontruthy_vat_no_update
    { ok := true, status := 200, vatNumber := some "" } "OLD" rfl (Or.inr rfl)

/-! ## The DOM-sync polling effect (part_000 lines 150-197 and 507-554)

The interval callback is modelled as a step (`tick`) on a state holding the
two target inputs (if present in the document) and whether the timer is still
active; a cleared timer fires no callback, so `tick` on an inactive state is
the identity. -/

/-- The attributes of an `HTMLInputElement` that the callback reads or
writes. -/
structure InputElement where
  value : String
  readOnly : Bool
  backgroundColor : String
  cursor : String
  deriving Repr, DecidableEq

/-- The part of the document the callback looks at: the element with id
`field_<pIvaID>Input` and the first element matching
`input[name="shippingAddress.company"], input[name="company"]`, each `none`
while not yet rendered. -/
structure DomState where
  pivaInput : Option InputElement
  companyInput : Option InputElement
  deriving Repr, DecidableEq

structure SyncState where
  dom : DomState
  timerActive : Bool
  deriving Repr, DecidableEq

/-- The fixed polling period, in milliseconds. -/
def pollIntervalMs : Nat := 300

/-- What the callback does to one found input with resolved value `resolved`:
set it read-only, force the value when `resolved` is truthy and differs from
the current value, and apply the disabled styling. -/
def processInput (resolved : String) (el : InputElement) : InputElement :=
  let el1 := { el with readOnly := true }
  let el2 :=
    if resolved != "" && el1.value != resolved then
      { el1 with value := resolved }
    else el1
  { el2 with backgroundColor := "#f4f4f4", cursor := "not-allowed" }

/-- One firing opportunity of the interval: if the timer has been cleared
nothing runs; otherwise each found input is processed with its resolved
value and the timer is cleared when at least one of the two was found
(`if (pivaInput || companyInput) clearInterval`). -/
def tick (companyVat companyName : String) (s : SyncState) : SyncState :=
  if s.timerActive then
    let pivaInput := s.dom.pivaInput.map (processInput companyVat)
    let companyInput := s.dom.companyInput.map (processInput companyName)
    { dom := { pivaInput := pivaInput, companyInput := companyInput },
      timerActive := !(pivaInput.isSome || companyInput.isSome) }
  else s

/-- The effect's cleanup (`return () => window.clearInterval(intervalId)`):
clears the timer unconditionally and touches nothing else. -/
def cleanup (s : SyncState) : SyncState := { s with timerActive := false }

lemma processInput_readOnly (resolved : String) (el : InputElement) :
    (processInput resolved el).readOnly = true := by
  unfold processInput
  by_cases h : (resolved != "" && el.value != resolved) = true <;> simp [h]

lemma processInput_value (resolved : String) (el : InputElement) :
    (processInput resolved el).value =
      if resolved ≠ "" ∧ el.value ≠ resolved then resolved else el.value := by
  unfold processInput
  by_cases h1 : resolved = "" <;> by_cases h2 : el.value = resolved <;>
    simp [h1, h2]

lemma tick_inactive (companyVat companyName : String) (s : SyncState)
    (h : s.timerActive = false) : tick companyVat companyName s = s := by
  unfold tick
  simp [h]

/-- C2: in any state where the timer is live and the VAT input exists, one
tick with resolved VAT "IT123" leaves the VAT input with value "IT123" and
`readOnly = true` and clears the timer; and a tick on a state whose timer is
cleared changes nothing, so no further writes occur on later ticks. -/
theorem C2_vat_input_synchronized (s : SyncState) (el : InputElement)
    (companyName : String)
    (hp : s.dom.pivaInput = some el) (ht : s.timerActive = true) :
    ((tick "IT123" companyName s).dom.pivaInput.map InputElement.value =
      some "IT123") ∧
    ((tick "IT123" companyName s).dom.pivaInput.map InputElement.readOnly =
      some true) ∧
    (tick "IT123" companyName s).timerActive = false ∧
    (∀ t : SyncState, t.timerActive = false →
      tick "IT123" companyName t = t) := by
  have hpiva : (tick "IT123" companyName s).dom.pivaInput =
      some (processInput "IT123" el) := by
    unfold tick
    simp [ht, hp]
  refine ⟨?_, ?_, ?_, fun t h => tick_inactive _ _ t h⟩
  · rw [hpiva]
    by_cases hv : el.value = "IT123" <;>
      simp [processInput_value, hv]
  · rw [hpiva]
    simp [processInput_readOnly]
  · unfold tick
    simp [ht, hp]

/-- C2 witness. -/
theorem C2_vat_input_synchronized_witness :
    (tick "IT123" "Acme"
      { dom := { pivaInput := some { value := "", readOnly := false,
                                     backgroundColor := "", cursor := "" },
                 companyInput := none },
        timerActive := true }).dom.pivaInput.map InputElement.value =
      some "IT123" :=
  (C2_vat_input_synchronized
    { dom := { pivaInput := some { value := "", readOnly := false,
                                   backgroundColor := "", cursor := "" },
               companyInput := none },
      timerActive := true }
    { value := "", readOnly := false, backgroundColor := "", cursor := "" }
    "Acme" rfl rfl).1

/-- C3 (amended): a live tick clears the timer exactly when at least one of
the two target inputs has been found; polling continues only while neither
has been found. -/
theorem C3_stop_condition (companyVat companyName : String) (s : SyncState)
    (ht : s.timerActive = true) :
    (tick companyVat companyName s).timerActive = false ↔
      (s.dom.pivaInput.isSome = true ∨ s.dom.companyInput.isSome = true) := by
  unfold tick
  simp [ht]
  cases s.dom.pivaInput <;> cases s.dom.companyInput <;> simp

/-- C3 witness. -/
theorem C3_stop_condition_witness :
    (tick "IT123" "Acme"
      { dom := { pivaInput := none,
                 companyInput := some { value := "", readOnly := false,
                                        backgroundColor := "", cursor := "" } },
        timerActive := true }).timerActive = false :=
  (C3_stop_condition "IT123" "Acme"
    { dom := { pivaInput := none,
               companyInput := some { value := "", readOnly := false,
                                      backgroundColor := "", cursor := "" } },
      timerActive := true } rfl).mpr (Or.inr rfl)

/-- A state in which only the VAT input has been found. -/
def c3State : SyncState :=
  { dom := { pivaInput := some { value := "", readOnly := false,
                                 backgroundColor := "", cursor := "" },
             companyInput := none },
    timerActive := true }

/-- C3 counterexample: in `c3State` only one of the two target inputs (the
VAT input) has been found, yet one tick already clears the timer — the loop
does not keep polling until both inputs have been found, contradicting the
claim that it stops only once both have been found. -/
theorem C3_counterexample :
    c3State.dom.pivaInput.isSome = true ∧
    c3State.dom.companyInput.isSome = false ∧
    (tick "IT123" "Acme" c3State).timerActive = false := by
  refine ⟨rfl, rfl, ?_⟩
  unfold tick c3State
  simp

/-- C8: the cleanup runs `clearInterval` unconditionally — after any number
of ticks from any state (in particular before any target element appeared),
the cleaned-up state has no active timer; the cleanup changes nothing else. -/
theorem C8_cleanup_unconditional (companyVat companyName : String)
    (s : SyncState) (n : Nat) :
    (cleanup ((tick companyVat companyName)^[n] s)).timerActive = false ∧
    (cleanup s).dom = s.dom :=
  ⟨rfl, rfl⟩

/-- C10: a found input is always made read-only and given the disabled
styling (background `#f4f4f4`, cursor `not-allowed`); its value is
overwritten with the resolved value only when that value is non-empty and
differs from the current one, and is left unchanged when the resolved value
is empty or already equal; on a live tick, a found VAT input is processed
exactly this way. -/
theorem C10_tick_frame (resolved : String) (el : InputElement) :
    (processInput resolved el).readOnly = true ∧
    (processInput resolved el).backgroundColor = "#f4f4f4" ∧
    (processInput resolved el).cursor = "not-allowed" ∧
    (resolved = "" → (processInput resolved el).value = el.value) ∧
    (el.value = resolved → (processInput resolved el).value = el.value) ∧
    (resolved ≠ "" → el.value ≠ resolved →
      (processInput resolved el).value = resolved) ∧
    (∀ (companyName : String) (s : SyncState), s.timerActive = true →
      s.dom.pivaInput = some el →
      (tick resolved companyName s).dom.pivaInput =
        some (processInput resolved el)) := by
  refine ⟨processInput_readOnly resolved el, ?_, ?_, ?_, ?_, ?_, ?_⟩
  · unfold processInput
    by_cases h : (resolved != "" && el.value != resolved) = true <;> simp [h]
  · unfold processInput
    by_cases h : (resolved != "" && el.value != resolved) = true <;> simp [h]
  · intro h
    rw [processInput_value]
    simp [h]
  · intro h
    rw [processInput_value]
    simp [h]
  · intro h1 h2
    rw [processInput_value]
    simp [h1, h2]
  · intro companyName s ht hp
    unfold tick
    simp [ht, hp]

/-- C10 witness. -/
theorem C10_tick_frame_witness :
    (processInput ""
      { value := "KEEP", readOnly := false, backgroundColor := "",
        cursor := "" }).value = "KEEP" ∧
    (processInput ""
      { value := "KEEP", readOnly := false, backgroundColor := "",
        cursor := "" }).readOnly = true :=
  ⟨(C10_tick_frame ""
      { value := "KEEP", readOnly := false, backgroundColor := "",
        cursor := "" }).2.2.2.1 rfl,
   (C10_tick_frame ""
      { value := "KEEP", readOnly := false, backgroundColor := "",
        cursor := "" }).1⟩

/-! ## Shipping-mode resolution (part_000 lines 494-505 and 626-628) -/

structure PhysicalItem where
  id : String
  quantity : Nat
  deriving Repr, DecidableEq

structure LineItems where
  physicalItems : List PhysicalItem
  deriving Repr, DecidableEq

structure Cart where
  lineItems : LineItems
  deriving Repr, DecidableEq

structure Consignment where
  id : String
  lineItemIds : List String
  deriving Repr, DecidableEq

structure CheckoutSettings where
  hasMultiShippingEnabled : Bool
  deriving Repr, DecidableEq

structure Config where
  checkoutSettings : CheckoutSettings
  deriving Repr, DecidableEq

/-- The multi-shipping mode computation of the ShippingForm effect:
`hasMultiShippingEnabled` read from the (possibly absent) config with `?? false`,
conjoined with `isUsingMultiShipping(consignments, cart.lineItems)`.
`isUsingMultiShipping` lives outside the sources under verification
(imported from `./isUsingMultiShipping`), so it is taken as a parameter, as
the claim does ("per isUsingMultiShipping"). The source also conjoins
`!!cart && !!consignments`, which is always `true` here: both are required,
non-nullable props (and a JavaScript array is truthy even when empty). -/
def resolveIsMultiShippingMode (config : Option Config) (cart : Cart)
    (consignments : List Consignment)
    (isUsingMultiShipping : List Consignment → LineItems → Bool) : Bool :=
  let hasMultiShippingEnabled :=
    (config.map fun c => c.checkoutSettings.hasMultiShippingEnabled).getD false
  hasMultiShippingEnabled && isUsingMultiShipping consignments cart.lineItems

inductive ShippingMode where
  | single : ShippingMode
  | multi : ShippingMode
  deriving Repr, DecidableEq

/-- The render branch of ShippingForm:
`isMultiShippingMode ? getMultiShippingForm() : <SingleShippingForm .../>`. -/
def renderShippingForm (isMultiShippingMode : Bool) : ShippingMode :=
  if isMultiShippingMode then ShippingMode.multi else ShippingMode.single

/-- C6: the rendered mode is multi-shipping exactly when the multi-shipping
feature flag (read from the config, defaulting to false when the config is
absent) is enabled and `isUsingMultiShipping` holds of the consignments and
the cart's line items; when the flag is disabled the mode is single-shipping
regardless of the consignment split. -/
theorem C6_shipping_mode (config : Option Config) (cart : Cart)
    (consignments : List Consignment)
    (isUsingMultiShipping : List Consignment → LineItems → Bool) :
    (renderShippingForm
        (resolveIsMultiShippingMode config cart consignments isUsingMultiShipping) =
          ShippingMode.multi ↔
      ((config.map fun c => c.checkoutSettings.hasMultiShippingEnabled).getD false = true ∧
        isUsingMultiShipping consignments cart.lineItems = true)) ∧
    ((config.map fun c => c.checkoutSettings.hasMultiShippingEnabled).getD false = false →
      renderShippingForm
        (resolveIsMultiShippingMode config cart consignments isUsingMultiShipping) =
          ShippingMode.single) := by
  unfold renderShippingForm resolveIsMultiShippingMode
  constructor
  · constructor
    · intro h
      by_cases hflag :
          (config.map fun c => c.checkoutSettings.hasMultiShippingEnabled).getD false = true <;>
        by_cases huse : isUsingMultiShipping consignments cart.lineItems = true <;>
        simp_all
    · rintro ⟨hflag, huse⟩
      simp [hflag, huse]
  · intro hflag
    simp [hflag]

/-- C6 witness. -/
theorem C6_shipping_mode_witness :
    renderShippingForm
      (resolveIsMultiShippingMode
        (some { checkoutSettings := { hasMultiShippingEnabled := false } })
        { lineItems := { physicalItems := [] } } []
        (fun _ _ => true)) = ShippingMode.single :=
  (C6_shipping_mode
    (some { checkoutSettings := { hasMultiShippingEnabled := false } })
    { lineItems := { physicalItems := [] } } []
    (fun _ _ => true)).2 rfl

/-! ## patchedShippingAddress (part_000 lines 571-594) -/

/-- `field_<pIvaID>` — the custom-field id used to locate the VAT entry. -/
def pIvaCustomFieldId : String :=
  "field_" ++ mtxConfig.AddressCustomFields.pIvaID

/-- `patchedShippingAddress`: on a defined address, overwrite `company` with
`companyName || shippingAddress.company` and, when `customFields` is an array,
set `fieldValue := companyVat` on every entry whose `fieldId` equals
`field_<pIvaID>`; an undefined address passes through. -/
def patchedShippingAddress (companyName companyVat : String)
    (shippingAddress : Option Address) : Option Address :=
  match shippingAddress with
  | some a =>
    some { a with
      company := if companyName != "" then companyName else a.company,
      customFields :=
        match a.customFields with
        | some fields =>
          some (fields.map fun customField =>
            if customField.fieldId == pIvaCustomFieldId then
              { customField with fieldValue := companyVat }
            else customField)
        | none => a.customFields }
  | none => none

/-- C7: the patched shipping address agrees with the original on every
attribute except `company` (the resolved company name, or the original
company when the resolved name is empty) and, when `customFields` is an
array, the `fieldValue` of each entry whose `fieldId` is `field_<pIvaID>`
(overwritten with the resolved VAT); each custom-field entry keeps its
`fieldId`, non-matching entries are wholly unchanged, the list keeps its
length and order (pointwise over every index), a non-array `customFields`
passes through, and an undefined address stays undefined. -/
theorem C7_patched_shipping_address (companyName companyVat : String)
    (a b : Address)
    (h : patchedShippingAddress companyName companyVat (some a) = some b) :
    b.firstName = a.firstName ∧ b.lastName = a.lastName ∧
    b.address1 = a.address1 ∧ b.city = a.city ∧
    b.countryCode = a.countryCode ∧ b.phone = a.phone ∧
    b.company = (if companyName = "" then a.company else companyName) ∧
    (a.customFields = none → b.customFields = none) ∧
    (∀ fields, a.customFields = some fields →
      ∃ fields2, b.customFields = some fields2 ∧
        ∀ i : Nat, fields2[i]? = (fields[i]?).map (fun cf =>
          if cf.fieldId = pIvaCustomFieldId then
            { cf with fieldValue := companyVat }
          else cf)) ∧
    patchedShippingAddress companyName companyVat none = none := by
  unfold patchedShippingAddress at h
  injection h with h
  subst h
  refine ⟨rfl, rfl, rfl, rfl, rfl, rfl, ?_, ?_, ?_, rfl⟩
  · by_cases hc : companyName = "" <;> simp [hc]
  · intro hnone
    simp [hnone]
  · intro fields hfields
    refine ⟨fields.map (fun customField =>
        if customField.fieldId == pIvaCustomFieldId then
          { customField with fieldValue := companyVat }
        else customField), by simp [hfields], ?_⟩
    intro i
    rw [List.getElem?_map]
    cases fields[i]? with
    | none => rfl
    | some cf =>
      by_cases hid : cf.fieldId = pIvaCustomFieldId <;> simp [hid]

/-- A concrete shipping address before patching. -/
def c7Before : Address :=
  { firstName := "A", lastName := "B", company := "Old",
    address1 := "Via Roma 1", city := "Milano", countryCode := "IT",
    phone := "123",
    customFields := some [{ fieldId := "field_30", fieldValue := "" }] }

/-- `c7Before` after patching with company "Acme" and VAT "IT123". -/
def c7After : Address :=
  { firstName := "A", lastName := "B", company := "Acme",
    address1 := "Via Roma 1", city := "Milano", countryCode := "IT",
    phone := "123",
    customFields := some [{ fieldId := "field_30", fieldValue := "IT123" }] }

/-- C7 witness. -/
theorem C7_patched_shipping_address_witness :
    c7After.company = (if ("Acme" : String) = "" then c7Before.company else "Acme") ∧
    patchedShippingAddress "Acme" "IT123" none = none := by
  have h := C7_patched_shipping_address "Acme" "IT123" c7Before c7After (by decide)
  exact ⟨h.2.2.2.2.2.2.1, h.2.2.2.2.2.2.2.2.2⟩

end CheckoutJs
